import Mathlib

/-!
Verification development for the VedhVaani kundali service
(`src/vedhvaani_kundali_api_fixed/main.py`).

The service's own logic — house bucketing relative to the ascendant,
extraction of longitudes from the ephemeris library's return values,
assembly of the JSON / PDF responses, and the broad exception handling —
is embedded shallowly below.  Longitudes are modelled as exact rationals
(the generic house function also works over any linear ordered field with
a floor, covering the spec's "real numbers"); the external ephemeris and
PDF libraries appear as oracle parameters.  Display rounding
(`round(l, 6)` in the JSON body) is lossy decimal formatting and is not
modelled; properties are stated of the underlying values.
-/

namespace VedhVaani

/-- Python's `%` on reals with a positive right operand: the result takes
the sign of the divisor, `x % n = x - n * floor(x / n)`. -/
def pymod {K : Type} [LinearOrderedField K] [FloorRing K] (x n : K) : K :=
  x - n * (⌊x / n⌋ : ℤ)

/-- `get_house_number(planet_long, asc_long)` from `main.py` lines 145-150:
`diff = (planet_long - asc_long) % 360.0`; `house = int(diff // 30) + 1`
(here `diff ≥ 0`, so Python's `int` truncation of the floor-divided value
is the mathematical floor); `if house > 12: house -= 12`. -/
def get_house_number {K : Type} [LinearOrderedField K] [FloorRing K]
    (planet_long asc_long : K) : ℤ :=
  let diff := pymod (planet_long - asc_long) 360
  let house := ⌊diff / 30⌋ + 1
  if house > 12 then house - 12 else house

/-- The spec's reference definition of house assignment (spec §3 and §4):
`diff = (longitude - ascendant) mod 360`; `house = floor(diff / 30) + 1`;
if the result exceeds 12, subtract 12. -/
def spec_house_assignment {K : Type} [LinearOrderedField K] [FloorRing K]
    (longitude ascendant : K) : ℤ :=
  let diff := (longitude - ascendant) - 360 * (⌊(longitude - ascendant) / 360⌋ : ℤ)
  let house := ⌊diff / 30⌋ + 1
  if house > 12 then house - 12 else house

/-!  ## Raw ephemeris return values

`swe.calc_ut` and `swe.houses` return Python objects of unknown shape; the
`safe_*` helpers in `main.py` pick a longitude out of them.  `PyVal`
abstracts such an object: `num q` is any value Python's `float()` accepts
(floats, ints, numeric strings), `nonnum` any non-sequence value on which
`float()` raises, `seq` a list or tuple. -/

inductive PyVal : Type where
  | num (q : ℚ)
  | nonnum
  | seq (xs : List PyVal)

/-- `float(obj)`: succeeds exactly on `num`; raises on `nonnum` and on
lists/tuples. -/
def pyFloat : PyVal → Option ℚ
  | .num q => some q
  | _ => none

/-- The fallback loop of `safe_calc_ut` (lines 78-83): scan the top-level
elements for the first one `float()` accepts. -/
def scanFloat : List PyVal → Option ℚ
  | [] => none
  | x :: xs =>
    match pyFloat x with
    | some q => some q
    | none => scanFloat xs

/-- `safe_calc_ut` (lines 62-86), as a function of the raw `swe.calc_ut`
return value.  `first = result[0]`; a nested first element is unwrapped
once; any exception there falls back to scanning the top-level elements;
a non-sequence result raises `TypeError` out of the function (the `for`
statement itself fails, outside the inner `try`); no numeric element found
raises `RuntimeError`.  Both uncaught raises surface as `.error`. -/
def safe_calc_ut (result : PyVal) : Except String ℚ :=
  match result with
  | .num _ => .error "TypeError: float object is not iterable"
  | .nonnum => .error "TypeError: object is not iterable"
  | .seq xs =>
    match xs with
    | [] =>
      match scanFloat xs with
      | some q => .ok q
      | none => .error "RuntimeError: Cannot parse calc_ut result"
    | first :: _ =>
      match first with
      | .num q => .ok q
      | .seq (y :: _) =>
        match pyFloat y with
        | some q => .ok q
        | none =>
          match scanFloat xs with
          | some q => .ok q
          | none => .error "RuntimeError: Cannot parse calc_ut result"
      | _ =>
        match scanFloat xs with
        | some q => .ok q
        | none => .error "RuntimeError: Cannot parse calc_ut result"

/-- The recursive `scan` helper inside `safe_houses` (lines 121-134):
depth-first search for a numeric leaf in `[0, 360)`; out-of-range or
non-numeric leaves yield `None`. -/
def scan : PyVal → Option ℚ
  | .num q => if 0 ≤ q ∧ q < 360 then some q else none
  | .nonnum => none
  | .seq [] => none
  | .seq (x :: xs) =>
    match scan x with
    | some q => some q
    | none => scan (.seq xs)

/-- Patterns B and C of `safe_houses` (lines 110-135), reached with `asc`
still unset: `first = result[0]` (an empty result raises out to the outer
`except`, hence `RuntimeError`); a nested nonempty first element is tried
under the inner `try`; otherwise the depth-first `scan` runs, and a `None`
outcome becomes `RuntimeError`.  Every successful extraction is normalized
by `% 360.0` (line 141). -/
def safe_houses_patternBC (xs : List PyVal) : Except String ℚ :=
  match xs with
  | [] => .error "RuntimeError: Unable to extract ascendant"
  | first :: _ =>
    match first with
    | .seq (y :: _) =>
      match pyFloat y with
      | some q => .ok (pymod q 360)
      | none =>
        match scan (.seq xs) with
        | some q => .ok (pymod q 360)
        | none => .error "RuntimeError: Unable to extract ascendant"
    | _ =>
      match scan (.seq xs) with
      | some q => .ok (pymod q 360)
      | none => .error "RuntimeError: Unable to extract ascendant"

/-- `safe_houses` (lines 88-142) as a function of the raw `swe.houses`
return value.  Pattern A (lines 103-108): with at least two elements whose
second is a nonempty sequence, `float(ascmc[0])` is attempted — an
exception there is caught by the *outer* `except`, leaving `asc = None`
and raising `RuntimeError` (patterns B/C are skipped).  A non-sequence
result skips everything and raises `RuntimeError`.  The returned ascendant
is `asc % 360.0`. -/
def safe_houses (result : PyVal) : Except String ℚ :=
  match result with
  | .seq xs =>
    match xs with
    | _ :: b :: _ =>
      match b with
      | .seq (y :: _) =>
        match pyFloat y with
        | some q => .ok (pymod q 360)
        | none => .error "RuntimeError: Unable to extract ascendant"
      | _ => safe_houses_patternBC xs
    | _ => safe_houses_patternBC xs
  | _ => .error "RuntimeError: Unable to extract ascendant"

/-!  ## Requests, date parsing, language tables -/

/-- The `KundaliRequest` pydantic model (lines 49-57). -/
structure KundaliRequest : Type where
  name : String
  date : String
  time : String
  lat : ℚ
  lon : ℚ
  lang : String := "hi"
  style : String := "north"
  hsys : String := "P"
deriving DecidableEq

/-- A parsed calendar instant (the fields of the `datetime` the endpoints
use). -/
structure DateTime : Type where
  year : ℕ
  month : ℕ
  day : ℕ
  hour : ℕ
  minute : ℕ
deriving DecidableEq

def digitsToNat (l : List Char) : ℕ :=
  l.foldl (fun a c => a * 10 + (c.toNat - 48)) 0

def parseNat? (s : String) : Option ℕ :=
  if s.length ≠ 0 ∧ s.toList.all Char.isDigit then some (digitsToNat s.toList)
  else none

def isLeap (y : ℕ) : Bool :=
  (y % 4 == 0 && y % 100 != 0) || (y % 400 == 0)

def daysInMonth (y m : ℕ) : ℕ :=
  if m = 2 then (if isLeap y then 29 else 28)
  else if m = 4 ∨ m = 6 ∨ m = 9 ∨ m = 11 then 30
  else 31

/-- Modelled from the spec: `datetime.strptime` with format
`"%Y-%m-%d %H:%M"` (Python standard library, not part of this repository).
The spec's §2 and §6 require parsing `YYYY-MM-DD` / `HH:MM` into a
calendar instant, failing on malformed input: digit fields separated by
the literal `-`, space and `:`, with calendar-valid month/day and
clock-valid hour/minute; failure is a raised `ValueError`, here `none`. -/
def strptime_ymd_hm (s : String) : Option DateTime :=
  match s.splitOn " " with
  | [ds, ts] =>
    (match ds.splitOn "-", ts.splitOn ":" with
     | [ys, ms, dds], [hs, mins] =>
       (match parseNat? ys, parseNat? ms, parseNat? dds,
              parseNat? hs, parseNat? mins with
        | some y, some m, some d, some h, some mi =>
          if ys.length ≤ 4 ∧ 1 ≤ m ∧ m ≤ 12 ∧ 1 ≤ d ∧ d ≤ daysInMonth y m ∧
             h ≤ 23 ∧ mi ≤ 59 then
            some ⟨y, m, d, h, mi⟩
          else none
        | _, _, _, _, _ => none)
     | _, _ => none)
  | _ => none

/-- The `graha_names` table (lines 29-33), keyed by language code;
a missing key is Python's `KeyError`, here `none`. -/
def graha_names_hi : List String :=
  ["सूर्य", "चंद्र", "मंगल", "बुध", "बृहस्पति", "शुक्र", "शनि", "राहु", "केतु"]

def graha_names_mr : List String :=
  ["सूर्य", "चंद्र", "मंगळ", "बुध", "गुरू", "शुक्र", "शनी", "राहु", "केतु"]

def graha_names_en : List String :=
  ["Sun", "Moon", "Mars", "Mercury", "Jupiter", "Venus", "Saturn", "Rahu", "Ketu"]

def graha_names (lang : String) : Option (List String) :=
  if lang = "hi" then some graha_names_hi
  else if lang = "mr" then some graha_names_mr
  else if lang = "en" then some graha_names_en
  else none

/-- `rashifal_text.get(lang, rashifal_text["en"])` (lines 22-26, 282):
a total lookup falling back to the English sentence. -/
def rashifal_text_en : String := "This is a demo horoscope."

def rashifal_get (lang : String) : String :=
  if lang = "hi" then "यह एक डेमो राशिफल है।"
  else if lang = "mr" then "हा एक डेमो राशिभविष्य आहे."
  else rashifal_text_en

/-!  ## The ephemeris oracle

The external swisseph library: `julday` maps the date fields to a julian
day; `calc_ut` returns a raw value per `(topocentric longitude/latitude,
julian day, planet id)` — the `swe.set_topo(req.lon, req.lat, 0)` call
(line 241) is folded into the first two arguments; `houses` returns a raw
value per `(julian day, lat, lon, house system)`. -/

structure Ephemeris : Type where
  julday : ℕ → ℕ → ℕ → ℚ → ℚ
  calc_ut : ℚ → ℚ → ℚ → ℕ → PyVal
  houses : ℚ → ℚ → ℚ → String → PyVal

/-- swisseph planet identifiers used by the endpoints. -/
def SE_SUN : ℕ := 0
def SE_MOON : ℕ := 1
def SE_MERCURY : ℕ := 2
def SE_VENUS : ℕ := 3
def SE_MARS : ℕ := 4
def SE_JUPITER : ℕ := 5
def SE_SATURN : ℕ := 6
def SE_MEAN_NODE : ℕ := 10

/-- `jd = swe.julday(dt.year, dt.month, dt.day, dt.hour + dt.minute/60.0)`
(line 239). -/
def jdOf (eph : Ephemeris) (dt : DateTime) : ℚ :=
  eph.julday dt.year dt.month dt.day ((dt.hour : ℚ) + (dt.minute : ℚ) / 60)

/-- The `planets` dict of both endpoints (lines 244-256 and 299-309), in
insertion order Sun, Moon, Mars, Mercury, Jupiter, Venus, Saturn, Rahu
(= mean node), with Ketu appended as `(rahu_lon + 180.0) % 360.0`.  Any
`safe_calc_ut` failure aborts the whole computation (broad `except`). -/
def calcPlanets (eph : Ephemeris) (lon lat jd : ℚ) : Except String (List ℚ) :=
  match safe_calc_ut (eph.calc_ut lon lat jd SE_SUN) with
  | .error e => .error e
  | .ok sun =>
  match safe_calc_ut (eph.calc_ut lon lat jd SE_MOON) with
  | .error e => .error e
  | .ok moon =>
  match safe_calc_ut (eph.calc_ut lon lat jd SE_MARS) with
  | .error e => .error e
  | .ok mars =>
  match safe_calc_ut (eph.calc_ut lon lat jd SE_MERCURY) with
  | .error e => .error e
  | .ok mercury =>
  match safe_calc_ut (eph.calc_ut lon lat jd SE_JUPITER) with
  | .error e => .error e
  | .ok jupiter =>
  match safe_calc_ut (eph.calc_ut lon lat jd SE_VENUS) with
  | .error e => .error e
  | .ok venus =>
  match safe_calc_ut (eph.calc_ut lon lat jd SE_SATURN) with
  | .error e => .error e
  | .ok saturn =>
  match safe_calc_ut (eph.calc_ut lon lat jd SE_MEAN_NODE) with
  | .error e => .error e
  | .ok rahu =>
    .ok [sun, moon, mars, mercury, jupiter, venus, saturn, rahu,
         pymod (rahu + 180) 360]

/-- Bucketing of the planets dict into houses 1..12 (lines 262-265, also
repeated at 376-379 and inside both chart drawers): bucket `i` keeps the
planets whose `get_house_number` is `i`, in dict insertion order. -/
def houseBuckets (planets : List (String × ℚ)) (asc : ℚ) :
    List (List (String × ℚ)) :=
  (List.range 12).map
    (fun i => planets.filter (fun p => get_house_number p.2 asc = (i : ℤ) + 1))

/-- `ascendant` block of the JSON response (line 280): longitude,
`asc_long % 30.0`, and `int(asc_long // 30) + 1` (`asc_long ≥ 0`, so the
`int` truncation is the floor). -/
structure Ascendant : Type where
  longitude : ℚ
  degree_in_sign : ℚ
  sign_index : ℤ
deriving DecidableEq

/-- The successful `/kundali` JSON body (lines 273-284).  Longitudes are
kept exact (`round(·, 6)` / `round(·, 4)` display rounding omitted). -/
structure KundaliResponse : Type where
  name : String
  date_time : DateTime
  lang : String
  style : String
  hsys : String
  graha_positions : List (String × ℚ)
  ascendant : Ascendant
  houses : List (List (String × ℚ))
  rashifal : String
  dasha : List (String × String × String)
deriving DecidableEq

/-- Assembly of the successful response from the parsed instant, the
localized names, the nine longitudes and the ascendant. -/
def mkKundaliResponse (req : KundaliRequest) (dt : DateTime)
    (names : List String) (vals : List ℚ) (asc : ℚ) : KundaliResponse :=
  let planets := names.zip vals
  { name := req.name
    date_time := dt
    lang := req.lang
    style := req.style
    hsys := req.hsys
    graha_positions := planets
    ascendant := ⟨asc, pymod asc 30, ⌊asc / 30⌋ + 1⟩
    houses := houseBuckets planets asc
    rashifal := rashifal_get req.lang
    dasha := [("Mahadasha - " ++ names.getD 0 "", "2025-01-01", "2031-01-01"),
              ("Mahadasha - " ++ names.getD 1 "", "2031-01-01", "2041-01-01")] }

/-- The `/kundali` endpoint (lines 230-287).  The broad
`except Exception: return {"error": str(e)}` is the `Except.error` case;
the steps raise in source order: date parse, `graha_names[req.lang]`
lookup (the first dict key evaluated at line 245), the eight
`safe_calc_ut` calls, then `safe_houses`. -/
def kundali (eph : Ephemeris) (req : KundaliRequest) :
    Except String KundaliResponse :=
  match strptime_ymd_hm (req.date ++ " " ++ req.time) with
  | none => .error "ValueError: time data does not match format"
  | some dt =>
    match graha_names req.lang with
    | none => .error ("KeyError: " ++ req.lang)
    | some names =>
      match calcPlanets eph req.lon req.lat (jdOf eph dt) with
      | .error e => .error e
      | .ok vals =>
        match safe_houses (eph.houses (jdOf eph dt) req.lat req.lon req.hsys) with
        | .error e => .error e
        | .ok asc => .ok (mkKundaliResponse req dt names vals asc)

/-- The data content of the generated PDF (lines 313-392): header fields,
the rashifal line, the planet table, the ascendant summary and the house
listing (names only, line 379; the chart drawers bucket the same way). -/
structure PdfDoc : Type where
  name : String
  date : String
  time : String
  lat : ℚ
  lon : ℚ
  style : String
  lang : String
  rashifal : String
  planets : List (String × ℚ)
  asc_long : ℚ
  asc_sign_idx : ℤ
  asc_deg_in_sign : ℚ
  dasha : List (String × String × String)
  houses_names : List (List String)
deriving DecidableEq

/-- The `/kundali-pdf` endpoint (lines 289-394).  The computation mirrors
`/kundali`; the temp-file / canvas phase is the external `render` oracle
(its failure is caught by the same broad `except`); page geometry itself
is outside the embedding, so the result is the document's data content. -/
def kundali_pdf (eph : Ephemeris) (render : Except String Unit)
    (req : KundaliRequest) : Except String PdfDoc :=
  match strptime_ymd_hm (req.date ++ " " ++ req.time) with
  | none => .error "ValueError: time data does not match format"
  | some dt =>
    match graha_names req.lang with
    | none => .error ("KeyError: " ++ req.lang)
    | some names =>
      match calcPlanets eph req.lon req.lat (jdOf eph dt) with
      | .error e => .error e
      | .ok vals =>
        match safe_houses (eph.houses (jdOf eph dt) req.lat req.lon req.hsys) with
        | .error e => .error e
        | .ok asc =>
          match render with
          | .error e => .error e
          | .ok _ =>
            .ok { name := req.name
                  date := req.date
                  time := req.time
                  lat := req.lat
                  lon := req.lon
                  style := req.style
                  lang := req.lang
                  rashifal := rashifal_get req.lang
                  planets := names.zip vals
                  asc_long := asc
                  asc_sign_idx := ⌊asc / 30⌋ + 1
                  asc_deg_in_sign := pymod asc 30
                  dasha := [("Mahadasha - " ++ names.getD 0 "",
                             "2025-01-01", "2031-01-01"),
                            ("Mahadasha - " ++ names.getD 1 "",
                             "2031-01-01", "2041-01-01")]
                  houses_names :=
                    (houseBuckets (names.zip vals) asc).map (List.map Prod.fst) }

/-!  ## Concrete instances used to exercise the model -/

/-- A well-behaved concrete ephemeris oracle: planet `p` at longitude
`10 p + 3`, ascendant 75 (inside a `(cusps, ascmc)`-shaped result). -/
def eph0 : Ephemeris :=
  { julday := fun _ _ _ _ => 2460677
    calc_ut := fun _ _ _ p => .seq [.num (10 * p + 3)]
    houses := fun _ _ _ _ => .seq [.num 0, .seq [.num 75]] }

/-- An ephemeris oracle whose `calc_ut` reports every longitude as 450
(outside `[0, 360)`), with the same ascendant 75. -/
def eph450 : Ephemeris :=
  { julday := fun _ _ _ _ => 2460677
    calc_ut := fun _ _ _ _ => .seq [.num 450]
    houses := fun _ _ _ _ => .seq [.num 0, .seq [.num 75]] }

/-- An ephemeris oracle failing for exactly one planet: the Moon's
`calc_ut` result is a value `float()` rejects and that is not iterable,
while every other call (the Sun's included) succeeds. -/
def ephMoonFail : Ephemeris :=
  { julday := fun _ _ _ _ => 2460677
    calc_ut := fun _ _ _ p => if p = 1 then .nonnum else .seq [.num (10 * p + 3)]
    houses := fun _ _ _ _ => .seq [.num 0, .seq [.num 75]] }

/-- An ephemeris oracle whose planet calls all succeed but whose
`swe.houses` result is a non-sequence, so ascendant extraction fails. -/
def ephHousesFail : Ephemeris :=
  { julday := fun _ _ _ _ => 2460677
    calc_ut := fun _ _ _ p => .seq [.num (10 * p + 3)]
    houses := fun _ _ _ _ => .nonnum }

/-- A concrete valid request (the spec's example input). -/
def req0 : KundaliRequest :=
  { name := "Test", date := "2025-01-01", time := "00:00", lat := 0, lon := 0 }

/-- The same request with a malformed date string. -/
def reqBadDate : KundaliRequest :=
  { name := "Test", date := "not-a-date", time := "00:00", lat := 0, lon := 0 }

/-- The same request with a language outside the enumerated table. -/
def reqFr : KundaliRequest :=
  { name := "Test", date := "2025-01-01", time := "00:00", lat := 0, lon := 0
    lang := "fr" }

def defaultResponse : KundaliResponse :=
  { name := "", date_time := ⟨0, 0, 0, 0, 0⟩, lang := "", style := "", hsys := ""
    graha_positions := [], ascendant := ⟨0, 0, 0⟩, houses := [], rashifal := ""
    dasha := [] }

def defaultPdfDoc : PdfDoc :=
  { name := "", date := "", time := "", lat := 0, lon := 0, style := "", lang := ""
    rashifal := "", planets := [], asc_long := 0, asc_sign_idx := 0
    asc_deg_in_sign := 0, dasha := [], houses_names := [] }

/-- The successful response of `kundali eph0 req0`, extracted. -/
def resp0 : KundaliResponse := (kundali eph0 req0).toOption.getD defaultResponse

/-- The successful response of `kundali eph0 {req0 with lang := "en"}`. -/
def resp0en : KundaliResponse :=
  (kundali eph0 { req0 with lang := "en" }).toOption.getD defaultResponse

/-- The successful response of `kundali eph450 req0`. -/
def resp450 : KundaliResponse :=
  (kundali eph450 req0).toOption.getD defaultResponse

/-- The successful PDF document of `kundali_pdf eph0 (.ok ()) req0`. -/
def doc0 : PdfDoc := (kundali_pdf eph0 (.ok ()) req0).toOption.getD defaultPdfDoc

/-!  ## Helper lemmas -/

section PymodFacts

variable {K : Type} [LinearOrderedField K] [FloorRing K]

theorem pymod_nonneg (x : K) {n : K} (hn : 0 < n) : 0 ≤ pymod x n := by
  have h := Int.sub_floor_div_mul_nonneg x hn
  simpa [pymod, mul_comm] using h

theorem pymod_lt (x : K) {n : K} (hn : 0 < n) : pymod x n < n := by
  have h := Int.sub_floor_div_mul_lt x hn
  simpa [pymod, mul_comm] using h

theorem pymod_add_right (x n : K) (hn : n ≠ 0) : pymod (x + n) n = pymod x n := by
  unfold pymod
  have h : (x + n) / n = x / n + 1 := by
    field_simp
  rw [h, Int.floor_add_one]
  push_cast
  ring

end PymodFacts

section HouseFacts

variable {K : Type} [LinearOrderedField K] [FloorRing K]

theorem get_house_number_bounds (L A : K) :
    1 ≤ get_house_number L A ∧ get_house_number L A ≤ 12 := by
  unfold get_house_number
  have h0 : (0 : K) ≤ pymod (L - A) 360 := pymod_nonneg _ (by norm_num)
  have h1 : pymod (L - A) 360 < 360 := pymod_lt _ (by norm_num)
  have hf0 : (0 : ℤ) ≤ ⌊pymod (L - A) 360 / 30⌋ := by
    apply Int.floor_nonneg.mpr
    positivity
  have hf1 : ⌊pymod (L - A) 360 / 30⌋ < 12 := by
    apply Int.floor_lt.mpr
    push_cast
    linarith
  simp only []
  split <;> omega

end HouseFacts

theorem safe_houses_patternBC_ok_range {xs : List PyVal} {a : ℚ}
    (h : safe_houses_patternBC xs = .ok a) : 0 ≤ a ∧ a < 360 := by
  unfold safe_houses_patternBC at h
  repeat' split at h
  any_goals exact Except.noConfusion h
  all_goals
    exact (Except.ok.inj h) ▸ ⟨pymod_nonneg _ (by norm_num), pymod_lt _ (by norm_num)⟩

theorem safe_houses_ok_range {v : PyVal} {a : ℚ}
    (h : safe_houses v = .ok a) : 0 ≤ a ∧ a < 360 := by
  unfold safe_houses at h
  repeat' split at h
  any_goals exact Except.noConfusion h
  any_goals exact safe_houses_patternBC_ok_range h
  exact (Except.ok.inj h) ▸ ⟨pymod_nonneg _ (by norm_num), pymod_lt _ (by norm_num)⟩

theorem calcPlanets_ok_shape {eph : Ephemeris} {lon lat jd : ℚ} {vals : List ℚ}
    (h : calcPlanets eph lon lat jd = .ok vals) :
    ∃ su mo ma me ju ve sa ra,
      vals = [su, mo, ma, me, ju, ve, sa, ra, pymod (ra + 180) 360] := by
  unfold calcPlanets at h
  repeat' split at h
  any_goals exact Except.noConfusion h
  exact ⟨_, _, _, _, _, _, _, _, (Except.ok.inj h).symm⟩

theorem graha_names_inv {lang : String} {names : List String}
    (h : graha_names lang = some names) :
    (lang = "hi" ∧ names = graha_names_hi) ∨
    (lang = "mr" ∧ names = graha_names_mr) ∨
    (lang = "en" ∧ names = graha_names_en) := by
  unfold graha_names at h
  split at h
  · exact Or.inl ⟨by assumption, (Option.some.inj h).symm⟩
  split at h
  · exact Or.inr (Or.inl ⟨by assumption, (Option.some.inj h).symm⟩)
  split at h
  · exact Or.inr (Or.inr ⟨by assumption, (Option.some.inj h).symm⟩)
  exact Option.noConfusion h

theorem graha_names_len_nodup {lang : String} {names : List String}
    (h : graha_names lang = some names) :
    names.length = 9 ∧ names.Nodup := by
  rcases graha_names_inv h with ⟨_, rfl⟩ | ⟨_, rfl⟩ | ⟨_, rfl⟩ <;>
    exact ⟨rfl, by decide⟩

theorem kundali_ok_build {eph : Ephemeris} {req : KundaliRequest} {dt : DateTime}
    {names : List String} {vals : List ℚ} {asc : ℚ}
    (hdt : strptime_ymd_hm (req.date ++ " " ++ req.time) = some dt)
    (hnames : graha_names req.lang = some names)
    (hvals : calcPlanets eph req.lon req.lat (jdOf eph dt) = .ok vals)
    (hasc : safe_houses (eph.houses (jdOf eph dt) req.lat req.lon req.hsys) = .ok asc) :
    kundali eph req = .ok (mkKundaliResponse req dt names vals asc) := by
  simp only [kundali, hdt, hnames, hvals, hasc]

theorem kundali_ok_inv {eph : Ephemeris} {req : KundaliRequest} {r : KundaliResponse}
    (h : kundali eph req = .ok r) :
    ∃ dt names vals asc,
      strptime_ymd_hm (req.date ++ " " ++ req.time) = some dt ∧
      graha_names req.lang = some names ∧
      calcPlanets eph req.lon req.lat (jdOf eph dt) = .ok vals ∧
      safe_houses (eph.houses (jdOf eph dt) req.lat req.lon req.hsys) = .ok asc ∧
      r = mkKundaliResponse req dt names vals asc := by
  unfold kundali at h
  repeat' split at h
  any_goals exact Except.noConfusion h
  refine ⟨_, _, _, _, ?_, ?_, ?_, ?_, (Except.ok.inj h).symm⟩ <;> assumption

theorem kundali_pdf_ok_inv {eph : Ephemeris} {render : Except String Unit}
    {req : KundaliRequest} {d : PdfDoc}
    (h : kundali_pdf eph render req = .ok d) :
    ∃ dt names vals asc,
      strptime_ymd_hm (req.date ++ " " ++ req.time) = some dt ∧
      graha_names req.lang = some names ∧
      calcPlanets eph req.lon req.lat (jdOf eph dt) = .ok vals ∧
      safe_houses (eph.houses (jdOf eph dt) req.lat req.lon req.hsys) = .ok asc ∧
      render = .ok () ∧
      d.planets = names.zip vals ∧ d.asc_long = asc ∧
      d.houses_names = (houseBuckets (names.zip vals) asc).map (List.map Prod.fst) := by
  unfold kundali_pdf at h
  repeat' split at h
  any_goals exact Except.noConfusion h
  rename_i o1 dt hdt o2 names hnames o3 vals hvals o4 asc hasc rd u
  have hd := (Except.ok.inj h).symm
  subst hd
  exact ⟨dt, names, vals, asc, hdt, hnames, hvals, hasc, rfl, rfl, rfl, rfl⟩

theorem count_filter_eq {α : Type} [BEq α] [LawfulBEq α] (p : α → Bool) (a : α)
    (l : List α) :
    (l.filter p).count a = if p a then l.count a else 0 := by
  split
  · exact List.count_filter (by assumption)
  · refine List.count_eq_zero.mpr ?_
    intro hmem
    exact absurd (List.mem_filter.mp hmem).2 (by simp_all)

theorem range12_indicator_sum (h : ℤ) (c : ℕ) (h1 : 1 ≤ h) (h2 : h ≤ 12) :
    ((List.range 12).map (fun i => if h = (i : ℤ) + 1 then c else 0)).sum = c := by
  have hr : List.range 12 = [0, 1, 2, 3, 4, 5, 6, 7, 8, 9, 10, 11] := rfl
  rw [hr]
  interval_cases h <;> norm_num

theorem filter_buckets_count {α : Type} [DecidableEq α] (f : α → ℤ) (ps : List α)
    (hf : ∀ x, 1 ≤ f x ∧ f x ≤ 12) (x : α) :
    ((List.range 12).map (fun i : ℕ => ps.filter fun p => f p = (i : ℤ) + 1)).flatten.count x
      = ps.count x := by
  rw [List.count_flatten, List.map_map]
  have hmap :
      (List.count x ∘ fun i : ℕ => ps.filter fun p => f p = (i : ℤ) + 1)
        = fun i : ℕ => if f x = (i : ℤ) + 1 then ps.count x else 0 := by
    funext i
    simp only [Function.comp_apply]
    rw [count_filter_eq]
    simp
  rw [hmap]
  exact range12_indicator_sum _ _ (hf x).1 (hf x).2

/-- The concatenation of the twelve house lists is a permutation of the
planets dict. -/
theorem houseBuckets_flatten_perm (ps : List (String × ℚ)) (asc : ℚ) :
    (houseBuckets ps asc).flatten.Perm ps := by
  rw [List.perm_iff_count]
  intro x
  have h := filter_buckets_count (fun p : String × ℚ => get_house_number p.2 asc) ps
    (fun y => get_house_number_bounds y.2 asc) x
  simpa [houseBuckets] using h

/-- If the planet computation succeeded, every one of the eight
`safe_calc_ut` extractions it performs succeeded. -/
theorem calcPlanets_ok_calls {eph : Ephemeris} {lon lat jd : ℚ} {vals : List ℚ}
    (h : calcPlanets eph lon lat jd = .ok vals) :
    ∀ p ∈ [SE_SUN, SE_MOON, SE_MARS, SE_MERCURY, SE_JUPITER, SE_VENUS,
           SE_SATURN, SE_MEAN_NODE],
      ∃ q, safe_calc_ut (eph.calc_ut lon lat jd p) = .ok q := by
  unfold calcPlanets at h
  repeat' split at h
  any_goals exact Except.noConfusion h
  intro p hp
  simp only [List.mem_cons, List.not_mem_nil, or_false] at hp
  rcases hp with rfl | rfl | rfl | rfl | rfl | rfl | rfl | rfl <;>
    exact ⟨_, by assumption⟩

theorem except_error_of_not_ok {α β : Type} {e : Except α β}
    (h : ∀ r, e ≠ .ok r) : ∃ m, e = .error m := by
  cases e with
  | error m => exact ⟨m, rfl⟩
  | ok r => exact absurd rfl (h r)

/-!  ## The claims -/

/-- **C1**: for every planet longitude `L` and ascendant longitude `A` (any
real numbers), `get_house_number L A` equals the spec's reference
definition: `diff = (L - A) mod 360`, `house = floor(diff / 30) + 1`, with
12 subtracted when the result exceeds 12. -/
theorem claim_C1_house_matches_spec {K : Type} [LinearOrderedField K] [FloorRing K]
    (L A : K) : get_house_number L A = spec_house_assignment L A := rfl

theorem claim_C1_witness :
    get_house_number (123 : ℚ) 45 = spec_house_assignment (123 : ℚ) 45 :=
  claim_C1_house_matches_spec 123 45

/-- **C2**: `get_house_number` is total over all real inputs — it is a pure
function — and its result always lies in `[1, 12]`. -/
theorem claim_C2_house_total_in_range {K : Type} [LinearOrderedField K] [FloorRing K]
    (L A : K) : 1 ≤ get_house_number L A ∧ get_house_number L A ≤ 12 :=
  get_house_number_bounds L A

theorem claim_C2_witness :
    1 ≤ get_house_number (-50 : ℚ) 400 ∧ get_house_number (-50 : ℚ) 400 ≤ 12 :=
  claim_C2_house_total_in_range (-50) 400

/-- **C3**: a planet longitude exactly equal to the ascendant longitude is
assigned house 1. -/
theorem claim_C3_asc_house_one {K : Type} [LinearOrderedField K] [FloorRing K]
    (A : K) : get_house_number A A = 1 := by
  have h : pymod (A - A) (360 : K) = 0 := by
    unfold pymod
    simp
  unfold get_house_number
  rw [h]
  norm_num

theorem claim_C3_witness : get_house_number (77 : ℚ) 77 = 1 :=
  claim_C3_asc_house_one 77

/-- **C4**: house bucketing is periodic in the planet longitude with period
360 degrees. -/
theorem claim_C4_house_periodic {K : Type} [LinearOrderedField K] [FloorRing K]
    (L A : K) : get_house_number (L + 360) A = get_house_number L A := by
  unfold get_house_number
  rw [show L + 360 - A = (L - A) + 360 by ring,
    pymod_add_right _ _ (by norm_num)]

theorem claim_C4_witness :
    get_house_number ((10 : ℚ) + 360) 40 = get_house_number (10 : ℚ) 40 :=
  claim_C4_house_periodic 10 40

theorem zip_vals_ketu {names : List String} {vals : List ℚ}
    (hn : names.length = 9)
    (hshape : ∃ su mo ma me ju ve sa ra,
      vals = [su, mo, ma, me, ju, ve, sa, ra, pymod (ra + 180) 360]) :
    ((names.zip vals).map Prod.snd).getD 8 0
      = pymod (((names.zip vals).map Prod.snd).getD 7 0 + 180) 360 := by
  obtain ⟨su, mo, ma, me, ju, ve, sa, ra, rfl⟩ := hshape
  rw [List.map_snd_zip _ _ (by rw [hn]; simp)]
  simp [List.getD]

/-- **C5**: in every successful `/kundali` and `/kundali-pdf` response,
Ketu's longitude (ninth planet entry) equals Rahu's longitude (eighth
entry) plus 180 degrees reduced modulo 360, whatever the ephemeris
returned for Rahu. -/
theorem claim_C5_ketu_opposite_rahu (eph : Ephemeris) (render : Except String Unit)
    (req : KundaliRequest) (r : KundaliResponse) (d : PdfDoc)
    (hk : kundali eph req = .ok r) (hp : kundali_pdf eph render req = .ok d) :
    (r.graha_positions.map Prod.snd).getD 8 0
      = pymod ((r.graha_positions.map Prod.snd).getD 7 0 + 180) 360 ∧
    (d.planets.map Prod.snd).getD 8 0
      = pymod ((d.planets.map Prod.snd).getD 7 0 + 180) 360 := by
  obtain ⟨dt, names, vals, asc, hdt, hnames, hvals, hasc, rfl⟩ := kundali_ok_inv hk
  obtain ⟨dt2, names2, vals2, asc2, hdt2, hnames2, hvals2, hasc2, _, hdp, _, _⟩ :=
    kundali_pdf_ok_inv hp
  constructor
  · exact zip_vals_ketu (graha_names_len_nodup hnames).1 (calcPlanets_ok_shape hvals)
  · rw [hdp]
    exact zip_vals_ketu (graha_names_len_nodup hnames2).1 (calcPlanets_ok_shape hvals2)

theorem claim_C5_witness :
    (resp0.graha_positions.map Prod.snd).getD 8 0
      = pymod ((resp0.graha_positions.map Prod.snd).getD 7 0 + 180) 360 ∧
    (doc0.planets.map Prod.snd).getD 8 0
      = pymod ((doc0.planets.map Prod.snd).getD 7 0 + 180) 360 :=
  claim_C5_ketu_opposite_rahu eph0 (.ok ()) req0 resp0 doc0
    (by with_unfolding_all rfl) (by with_unfolding_all rfl)

/-- **C6**: every failure of a modelled step — date parsing, any single
one of the eight `safe_calc_ut` extractions at the request's computed
julian day, the `safe_houses` extraction there, or PDF rendering —
makes the endpoint return the error object (the `.error` case, Python's
`{"error": str(e)}`) instead of propagating the exception.  In
particular a malformed date such as `"not-a-date"` yields exactly the
error object, and a request whose Moon call alone fails while the Sun's
succeeds yields it too (see the witness). -/
theorem claim_C6_error_shape (eph : Ephemeris) (render : Except String Unit)
    (req : KundaliRequest) :
    (strptime_ymd_hm (req.date ++ " " ++ req.time) = none →
      (∃ m, kundali eph req = .error m) ∧
      (∃ m, kundali_pdf eph render req = .error m)) ∧
    (∀ dt p m, strptime_ymd_hm (req.date ++ " " ++ req.time) = some dt →
      p ∈ [SE_SUN, SE_MOON, SE_MARS, SE_MERCURY, SE_JUPITER, SE_VENUS,
           SE_SATURN, SE_MEAN_NODE] →
      safe_calc_ut (eph.calc_ut req.lon req.lat (jdOf eph dt) p) = .error m →
      (∃ m2, kundali eph req = .error m2) ∧
      (∃ m2, kundali_pdf eph render req = .error m2)) ∧
    (∀ dt m, strptime_ymd_hm (req.date ++ " " ++ req.time) = some dt →
      safe_houses (eph.houses (jdOf eph dt) req.lat req.lon req.hsys) = .error m →
      (∃ m2, kundali eph req = .error m2) ∧
      (∃ m2, kundali_pdf eph render req = .error m2)) ∧
    (∀ m0, render = .error m0 →
      ∃ m, kundali_pdf eph render req = .error m) := by
  refine ⟨fun h => ⟨?_, ?_⟩, fun dt p m hdt hp hm => ⟨?_, ?_⟩,
    fun dt m hdt hm => ⟨?_, ?_⟩, fun m0 h0 => ?_⟩
  all_goals apply except_error_of_not_ok
  · intro r hok
    obtain ⟨dt, _, _, _, hdt, _⟩ := kundali_ok_inv hok
    rw [h] at hdt
    exact Option.noConfusion hdt
  · intro d hok
    obtain ⟨dt, _, _, _, hdt, _⟩ := kundali_pdf_ok_inv hok
    rw [h] at hdt
    exact Option.noConfusion hdt
  · intro r hok
    obtain ⟨dt2, names, vals, asc, hdt2, hnames, hvals, hasc, _⟩ := kundali_ok_inv hok
    rw [hdt] at hdt2
    obtain rfl := Option.some.inj hdt2
    obtain ⟨q, hq⟩ := calcPlanets_ok_calls hvals p hp
    rw [hq] at hm
    exact Except.noConfusion hm
  · intro d hok
    obtain ⟨dt2, names, vals, asc, hdt2, hnames, hvals, hasc, _⟩ :=
      kundali_pdf_ok_inv hok
    rw [hdt] at hdt2
    obtain rfl := Option.some.inj hdt2
    obtain ⟨q, hq⟩ := calcPlanets_ok_calls hvals p hp
    rw [hq] at hm
    exact Except.noConfusion hm
  · intro r hok
    obtain ⟨dt2, names, vals, asc, hdt2, hnames, hvals, hasc, _⟩ := kundali_ok_inv hok
    rw [hdt] at hdt2
    obtain rfl := Option.some.inj hdt2
    rw [hm] at hasc
    exact Except.noConfusion hasc
  · intro d hok
    obtain ⟨dt2, names, vals, asc, hdt2, hnames, hvals, hasc, _⟩ :=
      kundali_pdf_ok_inv hok
    rw [hdt] at hdt2
    obtain rfl := Option.some.inj hdt2
    rw [hm] at hasc
    exact Except.noConfusion hasc
  · intro d hok
    obtain ⟨dt, names, vals, asc, _, _, _, _, hre, _⟩ := kundali_pdf_ok_inv hok
    rw [h0] at hre
    exact Except.noConfusion hre

theorem claim_C6_witness :
    ((∃ m, kundali eph0 reqBadDate = Except.error m) ∧
     (∃ m, kundali_pdf eph0 (.ok ()) reqBadDate = Except.error m)) ∧
    ((∃ m, kundali ephMoonFail req0 = Except.error m) ∧
     (∃ m, kundali_pdf ephMoonFail (.ok ()) req0 = Except.error m)) ∧
    ((∃ m, kundali ephHousesFail req0 = Except.error m) ∧
     (∃ m, kundali_pdf ephHousesFail (.ok ()) req0 = Except.error m)) ∧
    (∃ m, kundali_pdf eph0 (.error "IOError: disk full") req0 = Except.error m) :=
  ⟨(claim_C6_error_shape eph0 (.ok ()) reqBadDate).1 (by with_unfolding_all rfl),
   (claim_C6_error_shape ephMoonFail (.ok ()) req0).2.1 ⟨2025, 1, 1, 0, 0⟩ SE_MOON
     "TypeError: object is not iterable" (by with_unfolding_all rfl)
     (by decide) (by with_unfolding_all rfl),
   (claim_C6_error_shape ephHousesFail (.ok ()) req0).2.2.1 ⟨2025, 1, 1, 0, 0⟩
     "RuntimeError: Unable to extract ascendant" (by with_unfolding_all rfl)
     (by with_unfolding_all rfl),
   (claim_C6_error_shape eph0 (.error "IOError: disk full") req0).2.2.2
     "IOError: disk full" rfl⟩

/-- **C7**: the language parameter does not interfere with the numeric
content.  If a request succeeds, the same request with any language in
{hi, mr, en} also succeeds, on the same parsed instant, the same nine
longitudes `vals`, the same ascendant and the same bucket structure —
the two responses are the decorations of the same numeric data with the
two name tables, and the horoscope string comes from the enumerated
table. -/
theorem claim_C7_lang_noninterference (eph : Ephemeris) (req : KundaliRequest)
    (r₁ : KundaliResponse) (l : String)
    (hl : l = "hi" ∨ l = "mr" ∨ l = "en")
    (h1 : kundali eph req = .ok r₁) :
    ∃ r₂, kundali eph { req with lang := l } = .ok r₂ ∧
      ∃ names₁ names₂ vals asc,
        graha_names req.lang = some names₁ ∧
        graha_names l = some names₂ ∧
        r₁.date_time = r₂.date_time ∧
        r₁.graha_positions = names₁.zip vals ∧
        r₂.graha_positions = names₂.zip vals ∧
        r₁.ascendant = r₂.ascendant ∧
        r₁.houses = houseBuckets (names₁.zip vals) asc ∧
        r₂.houses = houseBuckets (names₂.zip vals) asc ∧
        r₂.rashifal = rashifal_get l := by
  obtain ⟨dt, names₁, vals, asc, hdt, hnames₁, hvals, hasc, hr⟩ := kundali_ok_inv h1
  obtain ⟨names₂, hnames₂⟩ : ∃ ns, graha_names l = some ns := by
    rcases hl with rfl | rfl | rfl
    · exact ⟨_, rfl⟩
    · exact ⟨_, rfl⟩
    · exact ⟨_, rfl⟩
  subst hr
  exact ⟨mkKundaliResponse { req with lang := l } dt names₂ vals asc,
    kundali_ok_build hdt hnames₂ hvals hasc, names₁, names₂, vals, asc,
    hnames₁, hnames₂, rfl, rfl, rfl, rfl, rfl, rfl, rfl⟩

theorem claim_C7_witness :
    ∃ r₂, kundali eph0 { req0 with lang := "en" } = .ok r₂ ∧
      ∃ names₁ names₂ vals asc,
        graha_names req0.lang = some names₁ ∧
        graha_names "en" = some names₂ ∧
        resp0.date_time = r₂.date_time ∧
        resp0.graha_positions = names₁.zip vals ∧
        r₂.graha_positions = names₂.zip vals ∧
        resp0.ascendant = r₂.ascendant ∧
        resp0.houses = houseBuckets (names₁.zip vals) asc ∧
        r₂.houses = houseBuckets (names₂.zip vals) asc ∧
        r₂.rashifal = rashifal_get "en" :=
  claim_C7_lang_noninterference eph0 req0 resp0 "en" (Or.inr (Or.inr rfl))
    (by with_unfolding_all rfl)

/-- **C8, counterexample**: the claim "every ecliptic longitude in a
successful `/kundali` response lies in `[0, 360)` for every value the
external ephemeris call may return" is false: with an ephemeris whose
`calc_ut` reports 450, the request succeeds and the response carries the
out-of-range longitude 450 (the code normalizes only Ketu and the
ascendant, not the other eight planet longitudes). -/
theorem claim_C8_counterexample :
    kundali eph450 req0 = .ok resp450 ∧
    ("सूर्य", (450 : ℚ)) ∈ resp450.graha_positions ∧
    ¬ ((0 : ℚ) ≤ 450 ∧ (450 : ℚ) < 360) := by
  refine ⟨by with_unfolding_all rfl, by with_unfolding_all decide, ?_⟩
  intro hc
  exact absurd hc.2 (by norm_num)

/-- **C8, amended**: in every successful `/kundali` response the ascendant
longitude and Ketu's longitude (the ninth planet entry) lie in `[0, 360)`;
the other eight longitudes are the ephemeris values passed through
unnormalized, so all nine lie in `[0, 360)` exactly when those eight
do. -/
theorem claim_C8_longitude_ranges (eph : Ephemeris) (req : KundaliRequest)
    (r : KundaliResponse) (h : kundali eph req = .ok r) :
    (0 ≤ r.ascendant.longitude ∧ r.ascendant.longitude < 360) ∧
    (0 ≤ (r.graha_positions.map Prod.snd).getD 8 0 ∧
      (r.graha_positions.map Prod.snd).getD 8 0 < 360) ∧
    ((∀ v ∈ (r.graha_positions.map Prod.snd).take 8, 0 ≤ v ∧ v < 360) →
      ∀ v ∈ r.graha_positions.map Prod.snd, 0 ≤ v ∧ v < 360) := by
  obtain ⟨dt, names, vals, asc, hdt, hnames, hvals, hasc, rfl⟩ := kundali_ok_inv h
  obtain ⟨hlen, _⟩ := graha_names_len_nodup hnames
  obtain ⟨su, mo, ma, me, ju, ve, sa, ra, rfl⟩ := calcPlanets_ok_shape hvals
  have hmz : ((names.zip
      [su, mo, ma, me, ju, ve, sa, ra, pymod (ra + 180) 360]).map Prod.snd)
      = [su, mo, ma, me, ju, ve, sa, ra, pymod (ra + 180) 360] :=
    List.map_snd_zip _ _ (by rw [hlen]; simp)
  have hket : 0 ≤ pymod (ra + 180) (360 : ℚ) ∧ pymod (ra + 180) (360 : ℚ) < 360 :=
    ⟨pymod_nonneg _ (by norm_num), pymod_lt _ (by norm_num)⟩
  refine ⟨safe_houses_ok_range hasc, ?_, ?_⟩
  · simp only [mkKundaliResponse]
    rw [hmz]
    exact hket
  · simp only [mkKundaliResponse]
    rw [hmz]
    intro hall v hv
    rw [show ([su, mo, ma, me, ju, ve, sa, ra,
        pymod (ra + 180) 360] : List ℚ).take 8
        = [su, mo, ma, me, ju, ve, sa, ra] from rfl] at hall
    simp only [List.mem_cons, List.not_mem_nil, or_false] at hv
    rcases hv with rfl | rfl | rfl | rfl | rfl | rfl | rfl | rfl | rfl <;>
      first
        | exact hket
        | exact hall _ (by simp)

theorem claim_C8_amended_witness :
    (0 ≤ resp0.ascendant.longitude ∧ resp0.ascendant.longitude < 360) ∧
    (0 ≤ (resp0.graha_positions.map Prod.snd).getD 8 0 ∧
      (resp0.graha_positions.map Prod.snd).getD 8 0 < 360) ∧
    ((∀ v ∈ (resp0.graha_positions.map Prod.snd).take 8, 0 ≤ v ∧ v < 360) →
      ∀ v ∈ resp0.graha_positions.map Prod.snd, 0 ≤ v ∧ v < 360) :=
  claim_C8_longitude_ranges eph0 req0 resp0 (by with_unfolding_all rfl)

/-- **C9**: in every successful `/kundali` response the houses mapping
partitions the planet dict: the concatenation of the twelve house lists
is a permutation of `graha_positions`, hence of the nine planet names,
and those names are pairwise distinct — each planet appears in exactly
one house and the concatenation holds nothing else. -/
theorem claim_C9_houses_partition (eph : Ephemeris) (req : KundaliRequest)
    (r : KundaliResponse) (h : kundali eph req = .ok r) :
    r.houses.flatten.Perm r.graha_positions ∧
    (r.houses.flatten.map Prod.fst).Perm (r.graha_positions.map Prod.fst) ∧
    (r.graha_positions.map Prod.fst).Nodup := by
  obtain ⟨dt, names, vals, asc, hdt, hnames, hvals, hasc, rfl⟩ := kundali_ok_inv h
  obtain ⟨hlen, hnd⟩ := graha_names_len_nodup hnames
  obtain ⟨su, mo, ma, me, ju, ve, sa, ra, rfl⟩ := calcPlanets_ok_shape hvals
  have hperm := houseBuckets_flatten_perm
    (names.zip [su, mo, ma, me, ju, ve, sa, ra, pymod (ra + 180) 360]) asc
  refine ⟨hperm, hperm.map Prod.fst, ?_⟩
  have hfz : ((names.zip
      [su, mo, ma, me, ju, ve, sa, ra, pymod (ra + 180) 360]).map Prod.fst) = names :=
    List.map_fst_zip _ _ (by rw [hlen]; simp)
  simp only [mkKundaliResponse]
  rw [hfz]
  exact hnd

theorem claim_C9_witness :
    resp0.houses.flatten.Perm resp0.graha_positions ∧
    (resp0.houses.flatten.map Prod.fst).Perm (resp0.graha_positions.map Prod.fst) ∧
    (resp0.graha_positions.map Prod.fst).Nodup :=
  claim_C9_houses_partition eph0 req0 resp0 (by with_unfolding_all rfl)

/-- **C10**: a `/kundali` request whose language is none of hi/mr/en always
gets the error object — the `graha_names[req.lang]` lookup raises inside
the `try` (or the date fails to parse first, still an error object) —
even though the horoscope-text lookup alone would have fallen back to the
English sentence, so no partial or English-language kundali is
produced. -/
theorem claim_C10_unknown_lang_errors (eph : Ephemeris) (req : KundaliRequest)
    (h1 : req.lang ≠ "hi") (h2 : req.lang ≠ "mr") (h3 : req.lang ≠ "en") :
    (∃ m, kundali eph req = .error m) ∧
    rashifal_get req.lang = rashifal_text_en := by
  have hn : graha_names req.lang = none := by
    simp [graha_names, h1, h2, h3]
  constructor
  · apply except_error_of_not_ok
    intro r hok
    obtain ⟨dt, names, vals, asc, hdt, hnames, hvals, hasc, _⟩ := kundali_ok_inv hok
    rw [hn] at hnames
    exact Option.noConfusion hnames
  · simp [rashifal_get, h1, h2]

theorem claim_C10_witness :
    (∃ m, kundali eph0 reqFr = Except.error m) ∧
    rashifal_get reqFr.lang = rashifal_text_en :=
  claim_C10_unknown_lang_errors eph0 reqFr (by decide) (by decide) (by decide)

end VedhVaani
